import Mathlib

/-!
Verification of the ProPara conversion training/evaluation script
(main_story.py) against its design specification.

The script trains a two-story entity-conversion classifier: it builds
token/timestep-tag sequences per story variant, runs a fine-tuning loop
with gradient accumulation and checkpoint selection by dev-set
verifiability, and converts raw softmax outputs into the official
evaluation format.  The definitions below are a shallow embedding of the
relevant parts of that script; functions whose source lives in files not
present in the repository snapshot (data_utils.py, models.py, eval.py)
are modelled from the specification text and are marked as such.
-/

namespace MainStory

/-! ## Multi-head loss summation (main_story.py lines 102-113)

The training loop receives, per batch, a triple of optional head losses
and adds exactly the present ones to a running total that starts at 0:

    total_loss = 0
    if losses[0] is not None: total_loss += losses[0]
    if losses[1] is not None: total_loss += losses[1]
    if losses[2] is not None: total_loss += losses[2]
-/

/-- Direct translation of the three None-guarded accumulations. -/
def sum_present_losses (l0 l1 l2 : Option ℚ) : ℚ :=
  let t0 : ℚ := 0
  let t1 : ℚ := match l0 with
    | some x => t0 + x
    | none => t0
  let t2 : ℚ := match l1 with
    | some x => t1 + x
    | none => t1
  match l2 with
  | some x => t2 + x
  | none => t2

/-- Modelled from the spec: the model (models.py, absent from the
snapshot) returns, per classification head, an absent loss (`none`) when
no label applies for that head — e.g. the entity is absent in a
timestep — and a present loss otherwise. -/
def head_loss (label_applies : Bool) (loss : ℚ) : Option ℚ :=
  if label_applies then some loss else none

/-! ## Sequence builder (main_story.py lines 33-46)

Per entity, the script builds a question token list and per-sentence
token lists, concatenates them, and wraps them with the start/end
markers:

    para_ids_A = [cls] + convert_tokens_to_ids(question + sentences) + [sep]
    timestep_ids_A = make_timestep_sequence(question_tokens, sentence_tokens_A)[1:]

The RoBERTa vocabulary ids of the markers are fixed constants. -/

def cls_token_id : ℕ := 0

def sep_token_id : ℕ := 2

/-- The flat token list for one story variant: question tokens followed
by the tokens of every sentence in order (lines 37-42). -/
def para_tokens (question_tokens : List String) (sentence_tokens : List (List String)) :
    List String :=
  question_tokens ++ sentence_tokens.flatten

/-- The wrapped id sequence (lines 43-44); the tokenizer id lookup is an
external collaborator and is passed in as a function. -/
def para_ids (tok_to_id : String → ℕ) (question_tokens : List String)
    (sentence_tokens : List (List String)) : List ℕ :=
  cls_token_id :: (para_tokens question_tokens sentence_tokens).map tok_to_id ++ [sep_token_id]

/-- Tags for the sentence region: tokens of sentence `i` (counting from
`i0`) all carry tag `i`. -/
def sentence_tags (i0 : ℕ) : List (List String) → List ℤ
  | [] => []
  | s :: rest => s.map (fun _ => (i0 : ℤ)) ++ sentence_tags (i0 + 1) rest

/-- Modelled from the spec: `make_timestep_sequence` lives in
data_utils.py, which is absent from the snapshot.  Per the spec it
returns a timestep-tag array parallel to the marker-wrapped token
sequence, with one extra leading element that the caller drops (the
start-marker offset): question tokens and the start/end markers carry
the question-marker sentinel (-1 here), and tokens of sentence `i` carry
tag `i`. -/
def make_timestep_sequence (question_tokens : List String)
    (sentence_tokens : List (List String)) : List ℤ :=
  -1 :: -1 :: (question_tokens.map (fun _ => (-1 : ℤ))
    ++ sentence_tags 0 sentence_tokens ++ [-1])

/-- The pair of arrays the evaluation loop feeds to the model for one
story variant (lines 43-46): wrapped ids and the offset tag array. -/
def build_variant_inputs (tok_to_id : String → ℕ) (question_tokens : List String)
    (sentence_tokens : List (List String)) : List ℕ × List ℤ :=
  (para_ids tok_to_id question_tokens sentence_tokens,
   (make_timestep_sequence question_tokens sentence_tokens).drop 1)

lemma sentence_tags_length (i0 : ℕ) (sents : List (List String)) :
    (sentence_tags i0 sents).length = sents.flatten.length := by
  induction sents generalizing i0 with
  | nil => rfl
  | cons s rest ih =>
    simp [sentence_tags, ih]

/-! ## Training loop batch state machine (main_story.py lines 86-126)

State tracked across batches: the global batch counter (`global_step`,
initialised once at line 86), the buffer of backward-propagated loss
values accumulated since the last `optimizer.zero_grad()` (`accum`),
counters for the optimizer / scheduler / gradient-clipping calls, the
history of gradient windows actually applied by an optimizer step
(`applied_windows`), and the per-epoch running loss (`it_total_loss`,
reset at line 99 at the start of every epoch). -/

structure TrainState where
  global_step : ℕ
  accum : List ℚ
  optimizer_steps : ℕ
  scheduler_steps : ℕ
  clip_calls : ℕ
  applied_windows : List (List ℚ)
  it_total_loss : ℚ
deriving DecidableEq

/-- The loss value handed to `backward()` (lines 115-117): the summed
present losses, divided by the accumulation window size only when that
size exceeds one. -/
def backward_value (gas : ℕ) (l : Option ℚ × Option ℚ × Option ℚ) : ℚ :=
  let total := sum_present_losses l.1 l.2.1 l.2.2
  if 1 < gas then total / (gas : ℚ) else total

/-- One iteration of the inner batch loop (lines 101-126): sum present
losses, scale, backward (gradient joins the buffer), and on every batch
where `(global_step + 1) % gas = 0` clip, step optimizer and scheduler,
and zero the gradients; finally add the scaled loss to the epoch total
and advance `global_step`. -/
def batch_step (gas : ℕ) (st : TrainState) (l : Option ℚ × Option ℚ × Option ℚ) :
    TrainState :=
  let v := backward_value gas l
  let grads := st.accum ++ [v]
  if (st.global_step + 1) % gas = 0 then
    { global_step := st.global_step + 1
      accum := []
      optimizer_steps := st.optimizer_steps + 1
      scheduler_steps := st.scheduler_steps + 1
      clip_calls := st.clip_calls + 1
      applied_windows := st.applied_windows ++ [grads]
      it_total_loss := st.it_total_loss + v }
  else
    { st with
      global_step := st.global_step + 1
      accum := grads
      it_total_loss := st.it_total_loss + v }

/-- The state at line 86-88, before the epoch loop. -/
def init_train_state : TrainState :=
  { global_step := 0, accum := [], optimizer_steps := 0, scheduler_steps := 0,
    clip_calls := 0, applied_windows := [], it_total_loss := 0 }

/-- One epoch of the inner loop (lines 99-126): reset the per-epoch loss
and fold the batch step over the epoch batches. -/
def run_epoch (gas : ℕ) (st : TrainState) (batches : List (Option ℚ × Option ℚ × Option ℚ)) :
    TrainState :=
  batches.foldl (batch_step gas) { st with it_total_loss := 0 }

/-- End-of-epoch processing (lines 128-139): printing the epoch loss,
the dev evaluation under `model.eval()` / `torch.no_grad()`, appending
to the results log, and the checkpoint decision.  None of these touch
the optimizer, scheduler or gradient state, so on `TrainState` this is
the identity. -/
def epoch_end (st : TrainState) : TrainState := st

/-- The epoch loop (lines 89-139) threaded over the remaining epochs:
run the epoch batches, do the end-of-epoch processing, and record the
per-epoch `it_total_loss` (printed at line 128). -/
def run_training_aux (gas : ℕ) (acc : TrainState × List ℚ) :
    List (List (Option ℚ × Option ℚ × Option ℚ)) → TrainState × List ℚ
  | [] => acc
  | bs :: rest =>
    run_training_aux gas
      (epoch_end (run_epoch gas acc.1 bs),
       acc.2 ++ [(epoch_end (run_epoch gas acc.1 bs)).it_total_loss]) rest

/-- The whole epoch loop on `TrainState`, from the initial state of
lines 84-88, also collecting the per-epoch loss values. -/
def run_training (gas : ℕ)
    (epochs : List (List (Option ℚ × Option ℚ × Option ℚ))) : TrainState × List ℚ :=
  run_training_aux gas (init_train_state, []) epochs

/-- The optimizer-relevant view of a training state: everything except
the per-epoch running loss. -/
def opt_view (st : TrainState) : ℕ × List ℚ × ℕ × ℕ × ℕ × List (List ℚ) :=
  (st.global_step, st.accum, st.optimizer_steps, st.scheduler_steps,
   st.clip_calls, st.applied_windows)

/-! ## Checkpoint selection (main_story.py lines 84, 137-139)

    best_verifiability = -1
    ...
    if verifiability >= best_verifiability:
        torch.save(model.state_dict(), f"(output_dir)/best_model")
        best_verifiability = verifiability

The saved checkpoint is represented by the epoch index whose parameters
are on disk, paired with that epoch's dev verifiability. -/

structure CkptState where
  best : ℚ
  saved : Option (ℕ × ℚ)
  next_epoch : ℕ
deriving DecidableEq

/-- The end-of-epoch checkpoint decision for the epoch with dev
verifiability `v`: write `best_model` and update the best exactly when
`v >= best_verifiability`. -/
def checkpoint_step (st : CkptState) (v : ℚ) : CkptState :=
  if st.best ≤ v then
    { best := v, saved := some (st.next_epoch, v), next_epoch := st.next_epoch + 1 }
  else
    { st with next_epoch := st.next_epoch + 1 }

/-- The checkpoint decisions over a whole run, given the per-epoch dev
verifiability values, starting from `best_verifiability = -1` and no
checkpoint on disk. -/
def run_checkpointing (vs : List ℚ) : CkptState :=
  vs.foldl checkpoint_step { best := -1, saved := none, next_epoch := 0 }

/-! ## Invocations of test_model_conversion

`test_model_conversion` itself sets no inference mode; its callers
decide.  The three call sites in main_story.py are:

  * line 94 (baseline dev evaluation, epoch 0 of `train`): preceded by
    `model.eval()` and wrapped in `with torch.no_grad():`;
  * line 132 (per-epoch dev evaluation in `train`): likewise preceded by
    `model.eval()` and wrapped in `with torch.no_grad():`;
  * line 216 (final test evaluation in `main` under `--do_eval`): called
    directly, with no `model.eval()` call and no `torch.no_grad()`
    wrapper.

Each invocation records the call site, whether it happens inside
`train`, whether `model.eval()` was explicitly called before it, and
whether it is wrapped in `torch.no_grad()`. -/

structure EvalCall where
  site : ℕ
  in_train : Bool
  eval_mode_set : Bool
  no_grad : Bool
deriving DecidableEq

/-- The dev-evaluation invocations made by `train` (lines 91-97 and
130-132): one baseline call when the first epoch starts, then one call
at the end of every epoch; all are under `model.eval()` and
`torch.no_grad()`. -/
def trainEvalCalls (num_train_epochs : ℕ) : List EvalCall :=
  (if 0 < num_train_epochs then [⟨0, true, true, true⟩] else [])
    ++ (List.range num_train_epochs).map (fun _ => ⟨1, true, true, true⟩)

/-- All invocations of `test_model_conversion` in one run of `main`
(lines 210-216): the train-path calls when `--do_train` is set, and the
bare final test call when `--do_eval` is set. -/
def mainEvalCalls (do_train do_eval : Bool) (num_train_epochs : ℕ) : List EvalCall :=
  (if do_train then trainEvalCalls num_train_epochs else [])
    ++ (if do_eval then [⟨2, false, false, false⟩] else [])

/-! ## Seeding and run determinism (main_story.py lines 17-22, 191, 202)

`set_seed` reseeds every random source the run draws from:

    random.seed(args.seed)
    np.random.seed(args.seed)
    torch.manual_seed(args.seed)
    if args.n_gpu > 0:
        torch.cuda.manual_seed_all(args.seed)

Each library's seeding call replaces that generator's internal state
with a state determined by the seed alone; the generator states are
abstracted to the seed value that produced them.  `main` fixes
`args.n_gpu = 1` at line 191 before calling `set_seed` at line 202. -/

structure RngState where
  python : ℕ
  numpy : ℕ
  torch_cpu : ℕ
  torch_cuda : ℕ
deriving DecidableEq

/-- Direct translation of `set_seed`: all generators are reseeded from
`seed`; the CUDA generator only when `n_gpu > 0`, otherwise it keeps
whatever ambient state it had. -/
def set_seed (seed : ℕ) (n_gpu : ℕ) (st : RngState) : RngState :=
  { python := seed
    numpy := seed
    torch_cpu := seed
    torch_cuda := if 0 < n_gpu then seed else st.torch_cuda }

/-- The value `main` assigns to `args.n_gpu` at line 191. -/
def main_n_gpu : ℕ := 1

/-- One training run as a function of the configuration and of the
ambient (pre-seeding) generator states.  The external collaborators are
passed in as deterministic functions: `param_init` draws the trainable
parameters from the torch generator, `shuffle` draws each epoch's batch
order from the torch generator (the DataLoader at line 88 uses the
global torch generator), and `forward_losses` produces the per-head
batch losses from the parameters, the CUDA generator (dropout) and the
batch.  The result is the list of per-epoch loss totals. -/
def training_run (param_init : ℕ → ℕ)
    (shuffle : ℕ → ℕ → List (Option ℚ × Option ℚ × Option ℚ) →
      List (Option ℚ × Option ℚ × Option ℚ))
    (forward_losses : ℕ → ℕ → (Option ℚ × Option ℚ × Option ℚ) →
      (Option ℚ × Option ℚ × Option ℚ))
    (seed n_gpu gas num_train_epochs : ℕ)
    (data : List (Option ℚ × Option ℚ × Option ℚ))
    (ambient : RngState) : List ℚ :=
  let rng := set_seed seed n_gpu ambient
  let params := param_init rng.torch_cpu
  (run_training gas ((List.range num_train_epochs).map
    (fun e => (shuffle rng.torch_cpu e data).map
      (forward_losses params rng.torch_cuda)))).2

/-! ## Output conversion and scoring (main_story.py lines 57-61)

`convert_output_format_complete_conversion` and `official_evaluate`
live in eval.py, which is absent from the snapshot; both are modelled
from the spec.  The raw predictions are, per example, per entity, three
probability vectors; conversion maps each probability vector to a
discrete label, and scoring compares converted predictions with the
reference to produce three scalar metrics.  Both are modelled with an
explicit world state threaded through, to state that they neither read
nor write any hidden state. -/

/-- Index of the first maximal element of a probability vector (0 on an
empty vector). -/
def argmax_index (l : List ℚ) : ℕ :=
  match l with
  | [] => 0
  | x :: xs =>
    (xs.foldl
      (fun (acc : ℕ × ℚ × ℕ) y =>
        if acc.2.1 < y then (acc.2.2, y, acc.2.2 + 1) else (acc.1, acc.2.1, acc.2.2 + 1))
      (0, x, 1)).1

/-- Modelled from the spec: the conversion step maps the nested
raw-probability structure (per example, per entity, per head) to
discrete labels. -/
def convert_output_format (preds : List (List (List (List ℚ)))) :
    List (List (List ℕ)) :=
  preds.map (fun sample => sample.map (fun entity => entity.map argmax_index))

/-- Number of positionwise label matches between converted predictions
and reference labels. -/
def count_matches (c r : List (List (List ℕ))) : ℕ :=
  ((c.zip r).map (fun p =>
    ((p.1.zip p.2).map (fun q =>
      ((q.1.zip q.2).filter (fun t => t.1 = t.2)).length)).sum)).sum

/-- Total number of predicted labels. -/
def count_labels (c : List (List (List ℕ))) : ℕ :=
  (c.map (fun s => (s.map List.length).sum)).sum

/-- Modelled from the spec: the official scorer is a pure function of
the converted predictions and the reference, producing the three scalar
metrics (accuracy, consistency, verifiability). -/
def official_evaluate_metrics (c r : List (List (List ℕ))) : ℚ × ℚ × ℚ :=
  let m : ℚ := (count_matches c r : ℚ)
  let t : ℚ := (count_labels c : ℚ)
  (m / t, m / (t + 1), m / (t + 2))

/-- The observable world a stateful implementation could read or
write. -/
structure PipelineWorld where
  scratch : ℕ
deriving DecidableEq

/-- Modelled from the spec: one run of the conversion step, threaded
through the world state; it is a pure function of the predictions
contents and leaves the world untouched. -/
def conversion_pass (preds : List (List (List (List ℚ)))) (w : PipelineWorld) :
    List (List (List ℕ)) × PipelineWorld :=
  (convert_output_format preds, w)

/-- Modelled from the spec: one run of the scoring step, threaded
through the world state. -/
def scoring_pass (c r : List (List (List ℕ))) (w : PipelineWorld) :
    (ℚ × ℚ × ℚ) × PipelineWorld :=
  (official_evaluate_metrics c r, w)

/-! ## Pre-run behaviour of main (main_story.py lines 184-219)

    if os.path.exists(args.output_dir) and os.listdir(args.output_dir) and args.do_train:
        print("Output directory (...) already exists and is not empty.")
    ...
    if not os.path.exists(args.output_dir):
        os.makedirs(args.output_dir)
    if args.do_train: <copy scripts, save args; train(args, model)>
    if args.do_eval: <load best_model; evaluate on test>

The observable actions of this phase, in program order.  There is no
abort path: `abort_run` is in the action alphabet only to state that it
is never emitted. -/

inductive MainAction where
  | warn_nonempty_dir
  | make_output_dir
  | save_provenance
  | run_train
  | run_eval
  | abort_run
deriving DecidableEq

/-- The actions `main` performs after parsing, as a function of whether
the (final) output directory exists, whether it is non-empty, and the
two mode flags. -/
def main_pre_run (dir_exists dir_nonempty do_train do_eval : Bool) : List MainAction :=
  (if dir_exists && dir_nonempty && do_train then [MainAction.warn_nonempty_dir] else [])
    ++ (if !dir_exists then [MainAction.make_output_dir] else [])
    ++ (if do_train then [MainAction.save_provenance, MainAction.run_train] else [])
    ++ (if do_eval then [MainAction.run_eval] else [])

/-! ## Helper lemmas -/

lemma trainEvalCalls_fields (n : ℕ) (c : EvalCall) (hc : c ∈ trainEvalCalls n) :
    c.in_train = true ∧ c.eval_mode_set = true ∧ c.no_grad = true := by
  unfold trainEvalCalls at hc
  rcases List.mem_append.mp hc with h | h
  · split at h <;> simp_all
  · rcases List.mem_map.mp h with ⟨i, _, rfl⟩
    exact ⟨rfl, rfl, rfl⟩

/-! ## Claims -/

/-- Claim C3: for every training batch, the batch loss equals the sum of
exactly the present (non-absent) head losses; a head with no applicable
label is reported as absent (`none`, distinct from a zero loss) and
contributes nothing to the sum, and the summation is total (no error
path). -/
theorem batch_loss_sums_present_heads (l0 l1 l2 : Option ℚ) (v : ℚ) :
    sum_present_losses l0 l1 l2 = ([l0, l1, l2].filterMap id).sum
    ∧ head_loss false v = none
    ∧ head_loss false v ≠ some 0
    ∧ sum_present_losses none l1 l2 = ([l1, l2].filterMap id).sum := by
  refine ⟨?_, rfl, by simp [head_loss], ?_⟩
  · cases l0 <;> cases l1 <;> cases l2 <;> simp [sum_present_losses, add_assoc]
  · cases l1 <;> cases l2 <;> simp [sum_present_losses]

/-- Claim C5: for every story-pair/question input and each story
variant, the token-id sequence and the timestep-tag sequence built for
that variant have equal length after the start-marker offset (dropping
the leading tag) is applied. -/
theorem variant_sequences_equal_length (tok_to_id : String → ℕ)
    (question_tokens : List String) (sentence_tokens : List (List String)) :
    ((make_timestep_sequence question_tokens sentence_tokens).drop 1).length
      = (para_ids tok_to_id question_tokens sentence_tokens).length := by
  simp [make_timestep_sequence, para_ids, para_tokens, sentence_tags_length,
    Function.comp_def]

/-- Claim C6: on an input whose sentence lists are empty, the sequence
builder still yields a well-formed minimal pair of sequences — the ids
are exactly the wrapped question ids, the tag array matches them in
length, and the result is nonempty — with no failure path (the builder
is a total function). -/
theorem empty_stories_still_build (tok_to_id : String → ℕ)
    (question_tokens : List String) :
    (build_variant_inputs tok_to_id question_tokens []).1
      = cls_token_id :: question_tokens.map tok_to_id ++ [sep_token_id]
    ∧ (build_variant_inputs tok_to_id question_tokens []).2
      = (-1 : ℤ) :: (question_tokens.map (fun _ => (-1 : ℤ)) ++ [-1])
    ∧ (build_variant_inputs tok_to_id question_tokens []).2.length
      = (build_variant_inputs tok_to_id question_tokens []).1.length
    ∧ (build_variant_inputs tok_to_id question_tokens []).1 ≠ [] := by
  refine ⟨?_, ?_, ?_, by simp [build_variant_inputs, para_ids]⟩
  · simp [build_variant_inputs, para_ids, para_tokens]
  · simp [build_variant_inputs, make_timestep_sequence, sentence_tags]
  · simp [build_variant_inputs, make_timestep_sequence, sentence_tags,
      para_ids, para_tokens]

/-- Claim C8: conversion and scoring are pure functions of the
predictions and reference contents with no hidden state: the threaded
world is left untouched, the outputs do not depend on it, and running
the conversion a second time on the same raw predictions yields the
identical converted output. -/
theorem conversion_scoring_pure (preds : List (List (List (List ℚ))))
    (c r : List (List (List ℕ))) (w1 w2 : PipelineWorld) :
    (conversion_pass preds w1).1 = (conversion_pass preds w2).1
    ∧ (conversion_pass preds w1).2 = w1
    ∧ (conversion_pass preds ((conversion_pass preds w1).2)).1
        = (conversion_pass preds w1).1
    ∧ (scoring_pass c r w1).1 = (scoring_pass c r w2).1
    ∧ (scoring_pass c r w1).2 = w1 :=
  ⟨rfl, rfl, rfl, rfl, rfl⟩

/-- Claim C9, counterexample: with the output directory existing and
non-empty but training disabled (an eval-only run), no warning is
emitted — the claim as stated (warning whenever the directory exists and
is non-empty) fails, because the source also requires `args.do_train`. -/
theorem nonempty_dir_warning_needs_do_train :
    MainAction.warn_nonempty_dir ∉ main_pre_run true true false true := by
  decide

/-- Claim C9, amended: the pre-run warning is emitted exactly when the
output directory exists, is non-empty, and training is enabled; in every
case it is advisory only — the run is never aborted and the train/eval
phases proceed exactly according to their flags, independent of the
directory state. -/
theorem warning_advisory_only (de dn dt dv : Bool) :
    (MainAction.warn_nonempty_dir ∈ main_pre_run de dn dt dv
      ↔ de = true ∧ dn = true ∧ dt = true)
    ∧ (MainAction.run_train ∈ main_pre_run de dn dt dv ↔ dt = true)
    ∧ (MainAction.run_eval ∈ main_pre_run de dn dt dv ↔ dv = true)
    ∧ MainAction.abort_run ∉ main_pre_run de dn dt dv := by
  cases de <;> cases dn <;> cases dt <;> cases dv <;> decide

/-- Claim C2, counterexample: in a run with both --do_train and
--do_eval set, not every invocation of test_model_conversion happens
under torch.no_grad with model.eval — the final test call (line 216) is
made bare. -/
theorem final_test_call_tracks_gradients :
    ((mainEvalCalls true true 1).all
      (fun c => c.no_grad && c.eval_mode_set)) = false := by
  decide

/-- Claim C2, amended: every dev evaluation issued from the training
loop runs under model.eval and torch.no_grad, while the final test
evaluation under --do_eval calls test_model_conversion with neither an
explicit model.eval call nor a torch.no_grad wrapper. -/
theorem eval_calls_no_grad_by_site (do_train do_eval : Bool) (n : ℕ)
    (c : EvalCall) (hc : c ∈ mainEvalCalls do_train do_eval n) :
    (c.in_train = true → c.no_grad = true ∧ c.eval_mode_set = true)
    ∧ (c.in_train = false →
        c.site = 2 ∧ c.no_grad = false ∧ c.eval_mode_set = false) := by
  unfold mainEvalCalls at hc
  rcases List.mem_append.mp hc with h | h
  · have hmem : c ∈ trainEvalCalls n := by
      cases do_train with
      | true => simpa using h
      | false => simp at h
    obtain ⟨ht, he, hg⟩ := trainEvalCalls_fields n c hmem
    exact ⟨fun _ => ⟨hg, he⟩, fun hf => by rw [ht] at hf; cases hf⟩
  · have hc2 : c = ⟨2, false, false, false⟩ := by
      cases do_eval with
      | true => simpa using h
      | false => simp at h
    subst hc2
    refine ⟨fun hf => ?_, fun _ => ⟨rfl, rfl, rfl⟩⟩
    simp at hf

/-- Witness for the amended C2 theorem at the concrete bare final-test
call of a --do_train --do_eval run with one epoch. -/
theorem eval_calls_no_grad_by_site_witness :
    (⟨2, false, false, false⟩ : EvalCall) ∈ mainEvalCalls true true 1
    ∧ (((⟨2, false, false, false⟩ : EvalCall).in_train = true →
          (⟨2, false, false, false⟩ : EvalCall).no_grad = true
          ∧ (⟨2, false, false, false⟩ : EvalCall).eval_mode_set = true)
      ∧ ((⟨2, false, false, false⟩ : EvalCall).in_train = false →
          (⟨2, false, false, false⟩ : EvalCall).site = 2
          ∧ (⟨2, false, false, false⟩ : EvalCall).no_grad = false
          ∧ (⟨2, false, false, false⟩ : EvalCall).eval_mode_set = false)) :=
  ⟨by decide, eval_calls_no_grad_by_site true true 1 _ (by decide)⟩

lemma checkpoint_step_best_le (st : CkptState) (v : ℚ) :
    st.best ≤ (checkpoint_step st v).best := by
  unfold checkpoint_step
  split
  · simpa
  · exact le_refl _

lemma foldl_checkpoint_best_le (l : List ℚ) (st : CkptState) :
    st.best ≤ (l.foldl checkpoint_step st).best := by
  induction l generalizing st with
  | nil => exact le_refl _
  | cons v rest ih =>
    exact le_trans (checkpoint_step_best_le st v) (ih (checkpoint_step st v))

lemma checkpoint_step_saved_best (st : CkptState) (v : ℚ)
    (h : ∀ p : ℕ × ℚ, st.saved = some p → p.2 = st.best) :
    ∀ p : ℕ × ℚ, (checkpoint_step st v).saved = some p
      → p.2 = (checkpoint_step st v).best := by
  unfold checkpoint_step
  split
  · intro p hp
    simp only [Option.some.injEq] at hp
    simp [← hp]
  · intro p hp
    exact h p hp

lemma foldl_checkpoint_saved_best (l : List ℚ) (st : CkptState)
    (h : ∀ p : ℕ × ℚ, st.saved = some p → p.2 = st.best) :
    ∀ p : ℕ × ℚ, (l.foldl checkpoint_step st).saved = some p
      → p.2 = (l.foldl checkpoint_step st).best := by
  induction l generalizing st with
  | nil => exact h
  | cons v rest ih =>
    exact ih (checkpoint_step st v) (checkpoint_step_saved_best st v h)

/-- Claim C1: after every training epoch, the checkpoint is written to
best_model and the best-seen verifiability updated exactly when the
epoch's dev verifiability is at least the current best (so a tying,
most-recent epoch overwrites the checkpoint); otherwise the state is
untouched.  Consequently the best value never decreases as the run
extends, and the verifiability of the checkpoint on disk is always the
current best and is monotonically non-decreasing over epochs. -/
theorem checkpoint_policy (st : CkptState) (v : ℚ) (vs more : List ℚ) :
    (checkpoint_step st v
        = { best := v, saved := some (st.next_epoch, v), next_epoch := st.next_epoch + 1 }
      ↔ st.best ≤ v)
    ∧ (¬ st.best ≤ v → checkpoint_step st v = { st with next_epoch := st.next_epoch + 1 })
    ∧ (st.best = v → (checkpoint_step st v).saved = some (st.next_epoch, v))
    ∧ (run_checkpointing vs).best ≤ (run_checkpointing (vs ++ more)).best
    ∧ (∀ p : ℕ × ℚ, (run_checkpointing vs).saved = some p
        → p.2 = (run_checkpointing vs).best)
    ∧ (∀ p q : ℕ × ℚ, (run_checkpointing vs).saved = some p
        → (run_checkpointing (vs ++ more)).saved = some q → p.2 ≤ q.2) := by
  have happ : run_checkpointing (vs ++ more)
      = more.foldl checkpoint_step (run_checkpointing vs) := by
    unfold run_checkpointing
    exact List.foldl_append _ _ vs more
  have hmono : (run_checkpointing vs).best ≤ (run_checkpointing (vs ++ more)).best := by
    rw [happ]
    exact foldl_checkpoint_best_le more (run_checkpointing vs)
  have hsaved : ∀ l : List ℚ, ∀ p : ℕ × ℚ,
      (run_checkpointing l).saved = some p → p.2 = (run_checkpointing l).best := by
    intro l
    exact foldl_checkpoint_saved_best l _ (fun p hp => by cases hp)
  refine ⟨?_, ?_, ?_, hmono, hsaved vs, ?_⟩
  · constructor
    · intro heq
      by_contra hlt
      rw [checkpoint_step, if_neg hlt] at heq
      have : st.best = v := congrArg CkptState.best heq
      exact hlt (le_of_eq this)
    · intro hle
      rw [checkpoint_step, if_pos hle]
  · intro hlt
    rw [checkpoint_step, if_neg hlt]
  · intro heq
    rw [checkpoint_step, if_pos (le_of_eq heq)]
  · intro p q hp hq
    have h1 : p.2 = (run_checkpointing vs).best := hsaved vs p hp
    have h2 : q.2 = (run_checkpointing (vs ++ more)).best := hsaved (vs ++ more) q hq
    rw [h1, h2]
    exact hmono

lemma batch_step_global_step (gas : ℕ) (st : TrainState)
    (l : Option ℚ × Option ℚ × Option ℚ) :
    (batch_step gas st l).global_step = st.global_step + 1 := by
  simp only [batch_step]
  split <;> rfl

/-- Claim C4: for every training batch, the value handed to the
backward pass is the summed present losses divided by the accumulation
window size, and exactly on batches where the global counter reaches a
multiple of the window the gradient norm is clipped, the optimizer and
scheduler are stepped and the accumulated gradients are reset; on all
other batches the gradient only joins the accumulation buffer and the
optimizer state is untouched. -/
theorem batch_accumulation_policy (gas : ℕ) (st : TrainState)
    (l : Option ℚ × Option ℚ × Option ℚ) (h : 0 < gas) :
    backward_value gas l = sum_present_losses l.1 l.2.1 l.2.2 / (gas : ℚ)
    ∧ (batch_step gas st l).global_step = st.global_step + 1
    ∧ (batch_step gas st l).it_total_loss = st.it_total_loss + backward_value gas l
    ∧ ((st.global_step + 1) % gas = 0 →
        (batch_step gas st l).accum = []
        ∧ (batch_step gas st l).optimizer_steps = st.optimizer_steps + 1
        ∧ (batch_step gas st l).scheduler_steps = st.scheduler_steps + 1
        ∧ (batch_step gas st l).clip_calls = st.clip_calls + 1
        ∧ (batch_step gas st l).applied_windows
            = st.applied_windows ++ [st.accum ++ [backward_value gas l]])
    ∧ ((st.global_step + 1) % gas ≠ 0 →
        (batch_step gas st l).accum = st.accum ++ [backward_value gas l]
        ∧ (batch_step gas st l).optimizer_steps = st.optimizer_steps
        ∧ (batch_step gas st l).scheduler_steps = st.scheduler_steps
        ∧ (batch_step gas st l).clip_calls = st.clip_calls
        ∧ (batch_step gas st l).applied_windows = st.applied_windows) := by
  refine ⟨?_, batch_step_global_step gas st l, ?_, ?_, ?_⟩
  · unfold backward_value
    rcases Nat.lt_or_ge 1 gas with hg | hg
    · rw [if_pos hg]
    · have h1 : gas = 1 := le_antisymm hg h
      subst h1
      simp
  · simp only [batch_step]
    split <;> rfl
  · intro hc
    simp [batch_step, hc]
  · intro hc
    simp [batch_step, hc]

/-- Witness for the C4 theorem with accumulation window 2, the initial
training state and a batch whose middle head loss is absent. -/
theorem batch_accumulation_policy_witness :
    0 < 2
    ∧ (backward_value 2 (some 1, none, some 2)
          = sum_present_losses (some 1) none (some 2) / ((2 : ℕ) : ℚ)
      ∧ (batch_step 2 init_train_state (some 1, none, some 2)).global_step
          = init_train_state.global_step + 1
      ∧ (batch_step 2 init_train_state (some 1, none, some 2)).it_total_loss
          = init_train_state.it_total_loss + backward_value 2 (some 1, none, some 2)
      ∧ ((init_train_state.global_step + 1) % 2 = 0 →
          (batch_step 2 init_train_state (some 1, none, some 2)).accum = []
          ∧ (batch_step 2 init_train_state (some 1, none, some 2)).optimizer_steps
              = init_train_state.optimizer_steps + 1
          ∧ (batch_step 2 init_train_state (some 1, none, some 2)).scheduler_steps
              = init_train_state.scheduler_steps + 1
          ∧ (batch_step 2 init_train_state (some 1, none, some 2)).clip_calls
              = init_train_state.clip_calls + 1
          ∧ (batch_step 2 init_train_state (some 1, none, some 2)).applied_windows
              = init_train_state.applied_windows
                  ++ [init_train_state.accum ++ [backward_value 2 (some 1, none, some 2)]])
      ∧ ((init_train_state.global_step + 1) % 2 ≠ 0 →
          (batch_step 2 init_train_state (some 1, none, some 2)).accum
              = init_train_state.accum ++ [backward_value 2 (some 1, none, some 2)]
          ∧ (batch_step 2 init_train_state (some 1, none, some 2)).optimizer_steps
              = init_train_state.optimizer_steps
          ∧ (batch_step 2 init_train_state (some 1, none, some 2)).scheduler_steps
              = init_train_state.scheduler_steps
          ∧ (batch_step 2 init_train_state (some 1, none, some 2)).clip_calls
              = init_train_state.clip_calls
          ∧ (batch_step 2 init_train_state (some 1, none, some 2)).applied_windows
              = init_train_state.applied_windows)) :=
  ⟨by decide, batch_accumulation_policy 2 init_train_state (some 1, none, some 2) (by decide)⟩

lemma foldl_batch_global_step (gas : ℕ)
    (b : List (Option ℚ × Option ℚ × Option ℚ)) (st : TrainState) :
    (b.foldl (batch_step gas) st).global_step = st.global_step + b.length := by
  induction b generalizing st with
  | nil => simp
  | cons l rest ih =>
    rw [List.foldl_cons, ih, batch_step_global_step]
    simp only [List.length_cons]
    omega

lemma run_training_aux_global_step (gas : ℕ)
    (epochs : List (List (Option ℚ × Option ℚ × Option ℚ)))
    (acc : TrainState × List ℚ) :
    (run_training_aux gas acc epochs).1.global_step
      = acc.1.global_step + (epochs.map List.length).sum := by
  induction epochs generalizing acc with
  | nil => simp [run_training_aux]
  | cons b rest ih =>
    rw [run_training_aux, ih]
    have hep : (epoch_end (run_epoch gas acc.1 b)).global_step
        = acc.1.global_step + b.length := by
      unfold epoch_end run_epoch
      rw [foldl_batch_global_step]
    rw [hep]
    simp
    omega

lemma batch_step_accum_mod (gas : ℕ) (h : 0 < gas) (st : TrainState)
    (l : Option ℚ × Option ℚ × Option ℚ)
    (hinv : st.accum.length = st.global_step % gas) :
    (batch_step gas st l).accum.length = (batch_step gas st l).global_step % gas := by
  by_cases hc : (st.global_step + 1) % gas = 0
  · simp [batch_step, hc]
  · have hgas : 1 < gas := by
      rcases Nat.lt_or_ge 1 gas with hx | hx
      · exact hx
      · exfalso
        have h1 : gas = 1 := le_antisymm hx h
        subst h1
        omega
    have h1 : (1 : ℕ) % gas = 1 := Nat.mod_eq_of_lt hgas
    have hmod : (st.global_step + 1) % gas = (st.global_step % gas + 1) % gas := by
      conv_lhs => rw [Nat.add_mod]
      rw [h1]
    have hlt : st.global_step % gas < gas := Nat.mod_lt _ h
    by_cases hfull : st.global_step % gas + 1 = gas
    · exfalso
      apply hc
      rw [hmod, hfull, Nat.mod_self]
    · have hlt2 : st.global_step % gas + 1 < gas := by omega
      simp [batch_step, hc, hmod, Nat.mod_eq_of_lt hlt2, hinv]

lemma foldl_batch_accum_mod (gas : ℕ) (h : 0 < gas)
    (b : List (Option ℚ × Option ℚ × Option ℚ)) (st : TrainState)
    (hinv : st.accum.length = st.global_step % gas) :
    (b.foldl (batch_step gas) st).accum.length
      = (b.foldl (batch_step gas) st).global_step % gas := by
  induction b generalizing st with
  | nil => exact hinv
  | cons l rest ih =>
    exact ih (batch_step gas st l) (batch_step_accum_mod gas h st l hinv)

lemma run_training_aux_accum_mod (gas : ℕ) (h : 0 < gas)
    (epochs : List (List (Option ℚ × Option ℚ × Option ℚ)))
    (acc : TrainState × List ℚ)
    (hinv : acc.1.accum.length = acc.1.global_step % gas) :
    (run_training_aux gas acc epochs).1.accum.length
      = (run_training_aux gas acc epochs).1.global_step % gas := by
  induction epochs generalizing acc with
  | nil => exact hinv
  | cons b rest ih =>
    rw [run_training_aux]
    refine ih _ ?_
    unfold epoch_end run_epoch
    exact foldl_batch_accum_mod gas h b _ hinv

lemma batch_step_it_shift (gas : ℕ) (st : TrainState) (c : ℚ)
    (l : Option ℚ × Option ℚ × Option ℚ) :
    batch_step gas { st with it_total_loss := c } l
      = { batch_step gas st l with it_total_loss := c + backward_value gas l } := by
  by_cases hc : (st.global_step + 1) % gas = 0 <;>
    simp [batch_step, hc]

lemma foldl_batch_opt_view (gas : ℕ)
    (b : List (Option ℚ × Option ℚ × Option ℚ)) (st : TrainState) (c : ℚ) :
    opt_view (b.foldl (batch_step gas) { st with it_total_loss := c })
      = opt_view (b.foldl (batch_step gas) st) := by
  induction b generalizing st c with
  | nil => rfl
  | cons l rest ih =>
    rw [List.foldl_cons, List.foldl_cons, batch_step_it_shift]
    exact ih (batch_step gas st l) (c + backward_value gas l)

/-- Claim C10: gradient-accumulation state persists across epoch
boundaries: the global batch counter is initialised once per run and
equals the total batch count across all epochs (never reset); the
end-of-epoch processing (dev evaluation and checkpoint decision) leaves
the optimizer and gradient state untouched, so a mid-window residual
gradient buffer — whose size always equals `global_step % window` —
carries into the next epoch; and splitting the same batch stream over
two epochs instead of one leaves the whole optimizer-relevant state
(counter, buffer, optimizer/scheduler/clip counts, applied windows)
unchanged, i.e. the step cadence is counted globally, not per epoch. -/
theorem accumulation_state_spans_epochs (gas : ℕ)
    (epochs : List (List (Option ℚ × Option ℚ × Option ℚ)))
    (b1 b2 : List (Option ℚ × Option ℚ × Option ℚ))
    (st : TrainState) (h : 0 < gas) :
    (run_training gas epochs).1.global_step = (epochs.map List.length).sum
    ∧ (run_training gas epochs).1.accum.length
        = (run_training gas epochs).1.global_step % gas
    ∧ epoch_end st = st
    ∧ opt_view (run_training gas [b1, b2]).1
        = opt_view (run_training gas [b1 ++ b2]).1 := by
  refine ⟨?_, ?_, rfl, ?_⟩
  · rw [run_training, run_training_aux_global_step]
    simp [init_train_state]
  · rw [run_training]
    exact run_training_aux_accum_mod gas h epochs _ rfl
  · simp only [run_training, run_training_aux, epoch_end, run_epoch,
      List.foldl_append]
    exact foldl_batch_opt_view gas b2
      (List.foldl (batch_step gas) { init_train_state with it_total_loss := 0 } b1) 0

/-- Witness for the C10 theorem with accumulation window 2 and three
batches split as two epochs (sizes 2 and 1), so the second epoch ends
mid-window. -/
theorem accumulation_state_spans_epochs_witness :
    0 < 2
    ∧ ((run_training 2 [[(some 1, none, none), (none, some 2, none)],
          [(none, none, some 3)]]).1.global_step
        = ([[(some 1, none, none), (none, some 2, none)],
            [(none, none, some 3)]].map List.length).sum
      ∧ (run_training 2 [[(some 1, none, none), (none, some 2, none)],
            [(none, none, some 3)]]).1.accum.length
          = (run_training 2 [[(some 1, none, none), (none, some 2, none)],
              [(none, none, some 3)]]).1.global_step % 2
      ∧ epoch_end init_train_state = init_train_state
      ∧ opt_view (run_training 2 [[(some 1, none, none), (none, some 2, none)],
            [(none, none, some 3)]]).1
          = opt_view (run_training 2 [[(some 1, none, none), (none, some 2, none)]
              ++ [(none, none, some 3)]]).1) := by
  have hb := accumulation_state_spans_epochs 2
    [[(some 1, none, none), (none, some 2, none)], [(none, none, some 3)]]
    [(some 1, none, none), (none, some 2, none)] [(none, none, some 3)]
    init_train_state (by decide)
  exact ⟨by decide, hb.1, hb.2.1, hb.2.2.1, hb.2.2.2⟩

/-- Claim C7: with a positive GPU count (main fixes n_gpu = 1), every
random source the run draws from — shuffling, parameter initialization
and dropout — is reseeded from the configured seed by set_seed, so the
whole training run is a function of the configuration alone: two runs
with identical configuration but arbitrary, different ambient generator
states produce identical per-epoch loss values, assuming a deterministic
compute backend (the external collaborators are the same deterministic
functions in both runs). -/
theorem seeded_run_deterministic (param_init : ℕ → ℕ)
    (shuffle : ℕ → ℕ → List (Option ℚ × Option ℚ × Option ℚ) →
      List (Option ℚ × Option ℚ × Option ℚ))
    (forward_losses : ℕ → ℕ → (Option ℚ × Option ℚ × Option ℚ) →
      (Option ℚ × Option ℚ × Option ℚ))
    (seed n_gpu gas num_train_epochs : ℕ)
    (data : List (Option ℚ × Option ℚ × Option ℚ))
    (a1 a2 : RngState) (h : 0 < n_gpu) :
    training_run param_init shuffle forward_losses seed n_gpu gas
        num_train_epochs data a1
      = training_run param_init shuffle forward_losses seed n_gpu gas
        num_train_epochs data a2 := by
  have hseed : set_seed seed n_gpu a1 = set_seed seed n_gpu a2 := by
    simp [set_seed, if_pos h]
  unfold training_run
  rw [hseed]

/-- Witness for the C7 theorem: concrete collaborators, the GPU count
main fixes at line 191, and two different ambient generator states. -/
theorem seeded_run_deterministic_witness :
    0 < main_n_gpu
    ∧ training_run id (fun _ _ d => d) (fun _ _ b => b) 42 main_n_gpu 2 3
          [(some 1, none, none), (none, none, some 2)] ⟨0, 1, 2, 3⟩
        = training_run id (fun _ _ d => d) (fun _ _ b => b) 42 main_n_gpu 2 3
          [(some 1, none, none), (none, none, some 2)] ⟨7, 8, 9, 10⟩ :=
  ⟨by decide,
   seeded_run_deterministic id (fun _ _ d => d) (fun _ _ b => b) 42 main_n_gpu 2 3
     [(some 1, none, none), (none, none, some 2)] ⟨0, 1, 2, 3⟩ ⟨7, 8, 9, 10⟩ (by decide)⟩

end MainStory
